import Mathlib

/-!
Verification of the tty2rpi sender pipeline.

Shallow embedding of:
- `src/files_pc/tty2rpi_sender.py` (window-title sender: title parsing,
  per-window and global payload dedupe, window tracking);
- `src/tty2rpi_sender.py` (the original window sender, for refinement
  comparison of the extraction logic);
- `src/files_rpi/home/tty2rpi/tty2rpi_mcp_sender.py` (MemCard Pro device
  sender: game-table loading, mode derivation, id resolution, publish
  dedupe, connection-loss handling).

Python strings become Lean `String`; `None`-able values become `Option`;
dicts used as finite maps become either association lists (the game table,
JSON state documents) or `Nat → Option String` update functions (the
per-HWND runtime maps).  Python truthiness on strings ( `""` is falsy ) and
on dicts ( `{}` is falsy ) is modelled explicitly at each use site.
-/

/-- Python `s.find(sub)` on character lists: first index at which `needle`
occurs in `hay`, scanning left to right (`none` for Python's `-1`). -/
def findSubAux (needle : List Char) : List Char → Nat → Option Nat
  | [], i => if needle.isPrefixOf ([] : List Char) then some i else none
  | c :: t, i => if needle.isPrefixOf (c :: t) then some i else findSubAux needle t (i + 1)

/-- Python `s.find(sub)`: index of first occurrence of `sub` in `s`. -/
def pyFind (s sub : String) : Option Nat :=
  findSubAux sub.toList s.toList 0

/-- Python `s.find(sub, start)`: first occurrence at index `start` or later. -/
def pyFindFrom (s sub : String) (start : Nat) : Option Nat :=
  (findSubAux sub.toList (s.toList.drop start) 0).map (· + start)

/-- Python slice `s[a:b]` (character indices, `b` exclusive). -/
def strSlice (s : String) (a b : Nat) : String :=
  String.mk ((s.toList.drop a).take (b - a))

/-- Python slice `s[a:]`. -/
def strSliceFrom (s : String) (a : Nat) : String :=
  String.mk (s.toList.drop a)

/-- Python `needle in hay` for strings. -/
def pyIn (needle hay : String) : Bool :=
  (pyFind hay needle).isSome

/-- Python `s.lower()` (ASCII case mapping, like Lean's `Char.toLower`). -/
def strLower (s : String) : String :=
  String.mk (s.toList.map Char.toLower)

/-- Python `s.upper()` (ASCII case mapping). -/
def strUpper (s : String) : String :=
  String.mk (s.toList.map Char.toUpper)

/-- Python `s.strip()`: drop leading and trailing whitespace. -/
def strTrim (s : String) : String :=
  String.mk (((s.toList.dropWhile Char.isWhitespace).reverse.dropWhile
    Char.isWhitespace).reverse)

/-- Python `s.startswith(p)`. -/
def strStartsWith (p s : String) : Bool :=
  p.toList.isPrefixOf s.toList

/-- Python `a or b` for an optional string `a` falling back to `b`
(`None` and `""` are falsy). -/
def pyOr (a : Option String) (b : String) : String :=
  match a with
  | some s => if s = "" then b else s
  | none => b

/-- The fixed payload marker `CMDCOR_DATA` shared by all senders. -/
def CMDCOR_DATA : String := "CMDCOR§PARAM§"

/-- `PROCESS_TO_EMU` from `files_pc/tty2rpi_sender.py`: lowercased
executable name to emulator kind. -/
def PROCESS_TO_EMU (p : String) : Option String :=
  if p = "mame.exe" then some "mame"
  else if p = "flycast.exe" then some "flycast"
  else if p = "duckstation-qt-x64-releaseltcg.exe" then some "duckstation"
  else if p = "teknoparrotui.exe" then some "teknoparrot"
  else if p = "pcsx2.exe" then some "pcsx2"
  else if p = "pcsx2-qt.exe" then some "pcsx2"
  else if p = "pcsx2-qtx64-avx2.exe" then some "pcsx2"
  else if p = "dolphin.exe" then some "dolphin"
  else if p = "dolphinqt.exe" then some "dolphin"
  else if p = "dolphinqt2.exe" then some "dolphin"
  else none

/-- `IGNORE_SUBSTRINGS` from `files_pc/tty2rpi_sender.py`: transient
(noise) substrings per emulator kind. -/
def IGNORE_SUBSTRINGS (emu : String) : List String :=
  if emu = "duckstation" then
    ["duckstation-qt-x64-releaseltcg", "select disc image", "automatic updater",
     "about duckstation", "about qt", "padtest", "memory scanner",
     "download covers", "memory card editor", "iso browser",
     "select search directory", "duckstation settings", "error",
     "select save state file", "duckstation controller presets",
     "select background image"]
  else if emu = "pcsx2" then
    ["pcsx2-qt", "ps2 bios (usa)", "select iso image", "open iso",
     "about pcsx2", "about qt", "automatic updater",
     "select location to save block dump", "show advanced settings",
     "select search directory", "select save state file"]
  else if emu = "dolphin" then
    ["dolphin-emu", "confirm", "open file"]
  else []

/-- `is_transient_title` from `files_pc/tty2rpi_sender.py`. -/
def is_transient_title (emulator low_title : String) : Bool :=
  (IGNORE_SUBSTRINGS emulator).any (fun needle => pyIn needle low_title)

/-- Label extraction of `parse_and_send` in `files_pc/tty2rpi_sender.py`
(lines 191-247): maps an emulator kind and a window title to the
`loaded_rom` label, `none` when the title is transient or parses empty. -/
def parse_pc (emulator new_title : String) : Option String :=
  let low := strTrim (strLower new_title)
  let loaded_rom : Option String :=
    if emulator = "mame" then
      match pyFind new_title "[" with
      | some start =>
        match pyFindFrom new_title "]" start with
        | some stop =>
          let r := strSlice new_title (start + 1) stop
          some (if r = "___empty" then "MAME-MENU" else r)
        | none => none
      | none => none
    else if emulator = "flycast" then
      if strStartsWith "flycast" low then
        match pyFind new_title "- " with
        | some dash => some (strTrim (strSliceFrom new_title (dash + 2)))
        | none => some "DCEMU-MENU"
      else some (strTrim new_title)
    else if emulator = "duckstation" then
      if is_transient_title emulator low then none
      else if strStartsWith "duckstation" low then some "PS1EMU-MENU"
      else some (strTrim new_title)
    else if emulator = "teknoparrot" then
      if strStartsWith "teknoparrot" low then some "TPEMU-MENU"
      else some (strTrim new_title)
    else if emulator = "pcsx2" then
      if is_transient_title emulator low then none
      else if strStartsWith "pcsx2" low then some "PS2EMU-MENU"
      else some (strTrim new_title)
    else if emulator = "dolphin" then
      if is_transient_title emulator low then none
      else if strStartsWith "dolphin" low then some "DOLPHIN-MENU"
      else some (strTrim new_title)
    else none
  match loaded_rom with
  | some r => if r = "" then none else some r
  | none => none

/-- Label extraction of `parse_and_send` in the original
`src/tty2rpi_sender.py` (lines 256-357), with its inline noise checks. -/
def parse_orig (emulator new_title : String) : Option String :=
  let low := strTrim (strLower new_title)
  let loaded_rom : Option String :=
    if emulator = "mame" then
      match pyFind new_title "[" with
      | some start =>
        match pyFindFrom new_title "]" start with
        | some stop =>
          let r := strSlice new_title (start + 1) stop
          some (if r = "___empty" then "MAME-MENU" else r)
        | none => none
      | none => none
    else if emulator = "flycast" then
      if strStartsWith "flycast" low then
        match pyFind new_title "- " with
        | some dash => some (strTrim (strSliceFrom new_title (dash + 2)))
        | none => some "DCEMU-MENU"
      else some (strTrim new_title)
    else if emulator = "duckstation" then
      if pyIn "duckstation-qt-x64-releaseltcg" low || pyIn "select disc image" low
          || pyIn "automatic updater" low || pyIn "about duckstation" low
          || pyIn "about qt" low || pyIn "padtest" low then none
      else if strStartsWith "duckstation" low then some "PS1EMU-MENU"
      else some (strTrim new_title)
    else if emulator = "teknoparrot" then
      if strStartsWith "teknoparrot" low then some "TPEMU-MENU"
      else some (strTrim new_title)
    else if emulator = "pcsx2" then
      if pyIn "pcsx2-qt" low || pyIn "ps2 bios (usa)" low
          || pyIn "select iso image" low || pyIn "open iso" low
          || pyIn "about pcsx2" low || pyIn "about qt" low
          || pyIn "automatic updater" low
          || pyIn "select location to save block dump" low
          || pyIn "show advanced settings" low
          || pyIn "select search directory" low
          || pyIn "select save state file" low then none
      else if strStartsWith "pcsx2" low then some "PS2EMU-MENU"
      else some (strTrim new_title)
    else if emulator = "dolphin" then
      if pyIn "dolphin-emu" low || pyIn "confirm" low
          || (pyIn "open" low && pyIn "file" low) then none
      else if strStartsWith "dolphin" low then some "DOLPHIN-MENU"
      else some (strTrim new_title)
    else none
  match loaded_rom with
  | some r => if r = "" then none else some r
  | none => none

/-- Runtime state of the window sender: the four per-HWND maps plus the
process-wide `last_global_payload`. -/
structure WinState where
  tracked_windows : Nat → Option String
  last_sent_titles : Nat → Option String
  hwnd_emulator : Nat → Option String
  last_sent_payload : Nat → Option String
  last_global_payload : Option String

/-- Point update of a `Nat`-keyed map. -/
def upd (f : Nat → Option String) (k : Nat) (v : Option String) : Nat → Option String :=
  fun x => if x = k then v else f x

/-- Observable effects of one `parse_and_send` invocation, in the order the
source performs them. -/
inductive Ev where
  | deliver (payload : String)
  | setSourcePayload (hwnd : Nat) (payload : String)
  | setGlobalPayload (payload : String)
deriving DecidableEq

/-- Whether an event is the delivery attempt (a write to the channel). -/
def isDeliverB : Ev → Bool
  | .deliver _ => true
  | _ => false

/-- Number of channel writes in an event trace. -/
def countDeliver (evs : List Ev) : Nat :=
  evs.countP isDeliverB

/-- `parse_and_send` from `files_pc/tty2rpi_sender.py`: resolves the label,
applies the per-HWND and global payload dedupe, and on a send emits the
delivery attempt followed by the two state updates (the source calls
`update_tty2rpi_marquee(payload)` at line 255 and then assigns
`last_sent_payload[hwnd]` and `last_global_payload` at lines 256-257;
`update_tty2rpi_marquee` catches every exception internally, so the
assignments run regardless of the delivery outcome). -/
def parse_and_send (st : WinState) (hwnd : Nat) (new_title : String) :
    List Ev × WinState :=
  match st.hwnd_emulator hwnd with
  | none => ([], st)
  | some emulator =>
    match parse_pc emulator new_title with
    | none => ([], st)
    | some loaded_rom =>
      if st.last_sent_payload hwnd = some (CMDCOR_DATA ++ loaded_rom) ∨
          st.last_global_payload = some (CMDCOR_DATA ++ loaded_rom) then ([], st)
      else
        ([Ev.deliver (CMDCOR_DATA ++ loaded_rom),
          Ev.setSourcePayload hwnd (CMDCOR_DATA ++ loaded_rom),
          Ev.setGlobalPayload (CMDCOR_DATA ++ loaded_rom)],
         { st with
            last_sent_payload :=
              upd st.last_sent_payload hwnd (some (CMDCOR_DATA ++ loaded_rom)),
            last_global_payload := some (CMDCOR_DATA ++ loaded_rom) })

/-- Start tracking a window: record its title and emulator kind. -/
def withTracked (st : WinState) (hwnd : Nat) (title emu : String) : WinState :=
  { st with
    tracked_windows := upd st.tracked_windows hwnd (some title),
    hwnd_emulator := upd st.hwnd_emulator hwnd (some emu) }

/-- Record a changed title for an already-tracked window. -/
def setTrackedTitle (st : WinState) (hwnd : Nat) (title : String) : WinState :=
  { st with tracked_windows := upd st.tracked_windows hwnd (some title) }

/-- `parse_and_send` followed by `last_sent_titles[hwnd] = title`, the
combination both call sites in the source use. -/
def afterParse (st : WinState) (hwnd : Nat) (title : String) :
    List Ev × WinState :=
  ((parse_and_send st hwnd title).1,
   { (parse_and_send st hwnd title).2 with
      last_sent_titles :=
        upd (parse_and_send st hwnd title).2.last_sent_titles hwnd
          (some title) })

/-- Window-discovery step for one window, from the `EnumWindows` callback in
`find_and_add_matching_windows` : skip empty titles and unknown processes,
otherwise start tracking, send the initial state, and record the title. -/
def discoverWindow (st : WinState) (hwnd : Nat) (proc_name title : String) :
    List Ev × WinState :=
  if title = "" then ([], st)
  else
    match PROCESS_TO_EMU proc_name with
    | none => ([], st)
    | some emu =>
      if (st.tracked_windows hwnd).isSome then ([], st)
      else afterParse (withTracked st hwnd title emu) hwnd title

/-- Change-detection step for one tracked window, from the body of
`main_loop` (lines 278-285): skip when the title is unchanged, otherwise
record it, parse-and-send, and update `last_sent_titles`. -/
def titleCheck (st : WinState) (hwnd : Nat) (title : String) :
    List Ev × WinState :=
  match st.tracked_windows hwnd with
  | none => ([], st)
  | some prev =>
    if title = prev then ([], st)
    else afterParse (setTrackedTitle st hwnd title) hwnd title

/-- One polling cycle of `main_loop` as seen by a single live window:
discovery (if it is not yet tracked) followed by the change check. -/
def observeWindow (st : WinState) (hwnd : Nat) (proc_name title : String) :
    List Ev × WinState :=
  ((discoverWindow st hwnd proc_name title).1 ++
    (titleCheck (discoverWindow st hwnd proc_name title).2 hwnd title).1,
   (titleCheck (discoverWindow st hwnd proc_name title).2 hwnd title).2)

/-- `n` consecutive polling cycles in which the window reports the same
raw observation (process and title). -/
def runObserve (st : WinState) (hwnd : Nat) (proc_name title : String) :
    Nat → List Ev × WinState
  | 0 => ([], st)
  | n + 1 =>
    ((observeWindow st hwnd proc_name title).1 ++
      (runObserve (observeWindow st hwnd proc_name title).2 hwnd proc_name
        title n).1,
     (runObserve (observeWindow st hwnd proc_name title).2 hwnd proc_name
        title n).2)

/-- Removal clean-up in `main_loop` (lines 269-277): the window no longer
exists, so all four per-HWND entries are dropped; `last_global_payload` is
not touched. -/
def removeWindow (st : WinState) (hwnd : Nat) : WinState :=
  { tracked_windows := upd st.tracked_windows hwnd none,
    last_sent_titles := upd st.last_sent_titles hwnd none,
    hwnd_emulator := upd st.hwnd_emulator hwnd none,
    last_sent_payload := upd st.last_sent_payload hwnd none,
    last_global_payload := st.last_global_payload }

/-- `_norm` from `tty2rpi_mcp_sender.py`: trim plus uppercase, used for
case/space-insensitive comparisons. -/
def _norm (s : String) : String :=
  strUpper (strTrim s)

/-- A JSON state document from `/api/currentState`, modelled as the ordered
key/value pairs of the returned object (string-valued fields only; the
fields the sender reads are `currentMode`, `game_id`, `gameID`). -/
structure StateDoc where
  entries : List (String × String)
deriving DecidableEq

/-- Python `data.get(k)` on a state document. -/
def StateDoc.get (d : StateDoc) (k : String) : Option String :=
  (d.entries.find? (fun kv => kv.1 = k)).map (·.2)

/-- Configuration of the device sender (`[MemCardPro]` section of the INI):
the two candidate device addresses and the three per-mode default memory
card tokens, as read at startup. -/
structure DeviceConfig where
  mcp2_ip : String
  mcp_gc_ip : String
  default_ps1_mc : String
  default_ps2_mc : String
  default_gc_mc : String
deriving DecidableEq

/-- Mutable state of the device sender: `last_game_name` and `last_mode`. -/
structure DevState where
  last_game_name : Option String
  last_mode : Option String
deriving DecidableEq

/-- Mode detection of `get_game_id` (lines 152-155): self-reported
`currentMode` uppercased, else `"GC"` when the polled host is the
configured GameCube address, else empty (unknown). -/
def deriveMode (cfg : DeviceConfig) (host : String) (data : StateDoc) : String :=
  let reported_mode := strUpper (pyOr (data.get "currentMode") "")
  let inferred_mode : Option String :=
    if host = cfg.mcp_gc_ip then some "GC" else none
  strUpper (if reported_mode = "" then pyOr inferred_mode "" else reported_mode)

/-- Per-mode default memory card token selection of `get_game_id`
(lines 169-177), over the normalized configured defaults. -/
def memory_card_token (cfg : DeviceConfig) (mode : String) : Option String :=
  if mode = "PS1" then some (_norm cfg.default_ps1_mc)
  else if mode = "PS2" then some (_norm cfg.default_ps2_mc)
  else if mode = "GC" then some (_norm cfg.default_gc_mc)
  else none

/-- The guard `if memory_card_token and gid_norm == memory_card_token`
(line 186), with Python truthiness on the token. -/
def tokenMatches (tok : Option String) (gid_norm : String) : Bool :=
  match tok with
  | some t => !(t == "") && gid_norm == t
  | none => false

/-- The expression `f"{mode}" if mode else "EMU_MENU"` (line 187): the
label produced by the default-card branch. -/
def tokenBranchLabel (mode : String) : String :=
  if mode = "" then "EMU_MENU" else mode

/-- The reported id: `data.get('game_id') or data.get('gameID') or ""`
(line 180). -/
def gameIdOf (data : StateDoc) : String :=
  pyOr (data.get "game_id") (pyOr (data.get "gameID") "")

/-- One game-table lookup as used by `get_game_id`: a hit whose `title`
field is falsy ( `""` ) counts as a miss (`if not game_name`). -/
def dbTitleHit (db : String → Option (String × String)) (k : String) :
    Option String :=
  match db k with
  | some ts => if ts.1 = "" then none else some ts.1
  | none => none

/-- Id-and-title resolution of `get_game_id` (lines 169-193): default-card
token match gives the mode name (or `EMU_MENU` for an empty mode),
otherwise the raw id then the normalized id are looked up in the game
table; `none` when nothing matches (the silently-skipped case). -/
def resolveLabel (cfg : DeviceConfig) (db : String → Option (String × String))
    (host : String) (data : StateDoc) : Option String :=
  if tokenMatches (memory_card_token cfg (deriveMode cfg host data))
      (_norm (gameIdOf data)) then
    some (tokenBranchLabel (deriveMode cfg host data))
  else
    match dbTitleHit db (gameIdOf data) with
    | some t => some t
    | none => dbTitleHit db (_norm (gameIdOf data))

/-- Mode-transition recording of `get_game_id` (lines 157-167): a
non-empty mode differing from `last_mode` is recorded (the per-mode
handlers `do_ps1_mode` etc. are logging-only). -/
def devModeUpd (st : DevState) (mode : String) : DevState :=
  if mode ≠ "" ∧ st.last_mode ≠ some mode then { st with last_mode := some mode }
  else st

/-- `get_game_id` from `files_rpi/home/tty2rpi/tty2rpi_mcp_sender.py`:
given the poll result (`none` models a failed HTTP request), returns the
payloads written to the channel, the updated state, and the boolean the
function returns (`false` = treat as offline).  A falsy (empty) JSON
document is offline; an unrecognized id returns `true` with no publish; a
resolved label is published only when it differs from `last_game_name`. -/
def get_game_id (cfg : DeviceConfig) (db : String → Option (String × String))
    (host : String) (obs : Option StateDoc) (st : DevState) :
    List String × DevState × Bool :=
  match obs with
  | none => ([], st, false)
  | some data =>
    if data.entries.isEmpty then ([], st, false)
    else
      match resolveLabel cfg db host data with
      | none => ([], devModeUpd st (deriveMode cfg host data), true)
      | some game_name =>
        if (devModeUpd st (deriveMode cfg host data)).last_game_name =
            some game_name then
          ([], devModeUpd st (deriveMode cfg host data), true)
        else
          ([CMDCOR_DATA ++ game_name],
           { devModeUpd st (deriveMode cfg host data) with
              last_game_name := some game_name }, true)

/-- `n` consecutive polling cycles of the device sender with the identical
raw observation `obs`. -/
def runDev (cfg : DeviceConfig) (db : String → Option (String × String))
    (host : String) (obs : Option StateDoc) (st : DevState) :
    Nat → List String × DevState
  | 0 => ([], st)
  | n + 1 =>
    ((get_game_id cfg db host obs st).1 ++
      (runDev cfg db host obs (get_game_id cfg db host obs st).2.1 n).1,
     (runDev cfg db host obs (get_game_id cfg db host obs st).2.1 n).2)

/-- Python truthiness of a poll result (`None` and `{}` are falsy). -/
def docTruthy : Option StateDoc → Bool
  | some d => !d.entries.isEmpty
  | none => false

/-- `find_memcard_ip`: the first configured, truthy, responding address. -/
def find_memcard_ip (cfg : DeviceConfig) (net : String → Option StateDoc) :
    Option String :=
  if cfg.mcp2_ip ≠ "" ∧ docTruthy (net cfg.mcp2_ip) then some cfg.mcp2_ip
  else if cfg.mcp_gc_ip ≠ "" ∧ docTruthy (net cfg.mcp_gc_ip) then some cfg.mcp_gc_ip
  else none

/-- State of the device sender's `__main__` loop: the currently connected
address plus the resolver state. -/
structure LoopState where
  current_ip : Option String
  dev : DevState
deriving DecidableEq

/-- The poll half of one `__main__` loop cycle (lines 233-236): run
`get_game_id`; on `False` mark the device lost, clearing `current_ip` and
`last_mode`. -/
def runPoll (cfg : DeviceConfig) (db : String → Option (String × String))
    (net : String → Option StateDoc) (ls : LoopState) (ip : String) :
    List String × LoopState :=
  if (get_game_id cfg db ip (net ip) ls.dev).2.2 then
    ((get_game_id cfg db ip (net ip) ls.dev).1,
     { ls with dev := (get_game_id cfg db ip (net ip) ls.dev).2.1 })
  else
    ((get_game_id cfg db ip (net ip) ls.dev).1,
     { current_ip := none,
       dev := { (get_game_id cfg db ip (net ip) ls.dev).2.1 with
          last_mode := none } })

/-- One full cycle of the device sender's `__main__` loop (lines 221-238):
when no device is connected, probe for one (resetting `last_mode` on a new
detection, line 227) and poll it; otherwise poll the current device. -/
def loopCycle (cfg : DeviceConfig) (db : String → Option (String × String))
    (net : String → Option StateDoc) (ls : LoopState) :
    List String × LoopState :=
  match ls.current_ip with
  | none =>
    match find_memcard_ip cfg net with
    | some ip =>
      runPoll cfg db net
        { current_ip := some ip, dev := { ls.dev with last_mode := none } } ip
    | none => ([], ls)
  | some ip => runPoll cfg db net ls ip

/-- One table row of `Game_DB.csv` as produced by `csv.DictReader`: column
name to cell value, in file order. -/
def rowGet (r : List (String × String)) (k : String) : Option String :=
  (r.find? (fun kv => kv.1 = k)).map (·.2)

/-- `row.values()` in column order. -/
def rowValues (r : List (String × String)) : List String :=
  r.map (·.2)

/-- `row.get('title') or ''`. -/
def rowTitle (r : List (String × String)) : String :=
  pyOr (rowGet r "title") ""

/-- `row.get('serial') or ''`. -/
def rowSerial (r : List (String × String)) : String :=
  pyOr (rowGet r "serial") ""

/-- Python `dict.setdefault(k, v)` on an association list: insert only when
the key is absent (first writer wins). -/
def setdefault (db : List (String × (String × String))) (k : String)
    (v : String × String) : List (String × (String × String)) :=
  if (db.find? (fun kv => kv.1 = k)).isSome then db else db ++ [(k, v)]

/-- `GAME_DB.get(k)` on the loaded table. -/
def dbGet (db : List (String × (String × String))) (k : String) :
    Option (String × String) :=
  (db.find? (fun kv => kv.1 = k)).map (·.2)

/-- The per-value body of `load_game_db` (lines 83-87): a non-empty cell
value becomes a key, raw then normalized, mapping to the row's
`(title, serial)` pair via `setdefault`. -/
def rowStep (pr : String × String) (d : List (String × (String × String)))
    (v : String) : List (String × (String × String)) :=
  if v = "" then d
  else setdefault (setdefault d v pr) (_norm v) pr

/-- The loop over `row.values()` with the row's `(title, serial)` pair. -/
def processRow (db : List (String × (String × String)))
    (r : List (String × String)) : List (String × (String × String)) :=
  (rowValues r).foldl (rowStep (rowTitle r, rowSerial r)) db

/-- `load_game_db` from `files_rpi/home/tty2rpi/tty2rpi_mcp_sender.py`
(lines 71-89), starting from the empty table. -/
def load_game_db (rows : List (List (String × String))) :
    List (String × (String × String)) :=
  rows.foldl processRow []

/-! ### Helper lemmas -/

/-- `parse_and_send` never changes the tracking, emulator, or title maps. -/
theorem parse_and_send_frame (st : WinState) (hwnd : Nat) (t : String) :
    (parse_and_send st hwnd t).2.tracked_windows = st.tracked_windows ∧
    (parse_and_send st hwnd t).2.hwnd_emulator = st.hwnd_emulator ∧
    (parse_and_send st hwnd t).2.last_sent_titles = st.last_sent_titles := by
  unfold parse_and_send
  split
  · exact ⟨rfl, rfl, rfl⟩
  · split
    · exact ⟨rfl, rfl, rfl⟩
    · split
      · exact ⟨rfl, rfl, rfl⟩
      · exact ⟨rfl, rfl, rfl⟩

/-- `parse_and_send` attempts at most one delivery. -/
theorem parse_and_send_deliver_le (st : WinState) (hwnd : Nat) (t : String) :
    countDeliver (parse_and_send st hwnd t).1 ≤ 1 := by
  unfold parse_and_send
  split
  · simp [countDeliver]
  · split
    · simp [countDeliver]
    · split
      · simp [countDeliver]
      · simp [countDeliver, List.countP_cons, isDeliverB]

/-! ### C10: refinement of the window extraction logic -/

/-- C10: for the window kinds mame, flycast and teknoparrot, the label
extraction of the original window sender (`src/tty2rpi_sender.py`) and of
the refactored table-driven sender (`src/files_pc/tty2rpi_sender.py`)
compute the same result — the same label, or in both cases no label — on
every window title. -/
theorem window_extraction_refinement (t : String) :
    parse_orig "mame" t = parse_pc "mame" t ∧
    parse_orig "flycast" t = parse_pc "flycast" t ∧
    parse_orig "teknoparrot" t = parse_pc "teknoparrot" t := by
  refine ⟨?_, ?_, ?_⟩ <;> simp [parse_orig, parse_pc]

/-! ### C7: removal drops per-source state, leaves the global payload -/

/-- C7: removing a window source drops all four per-HWND entries (tracked
title, last-sent title, kind mapping, last published payload) while
leaving `last_global_payload` unchanged; consequently a different
still-tracked source that resolves to the label last published (the
removed source's label) still does not republish. -/
theorem remove_window_drops_source_state (st : WinState) (hwnd : Nat) :
    (removeWindow st hwnd).tracked_windows hwnd = none ∧
    (removeWindow st hwnd).last_sent_titles hwnd = none ∧
    (removeWindow st hwnd).hwnd_emulator hwnd = none ∧
    (removeWindow st hwnd).last_sent_payload hwnd = none ∧
    (removeWindow st hwnd).last_global_payload = st.last_global_payload ∧
    (∀ h2 emu rom title,
      (removeWindow st hwnd).hwnd_emulator h2 = some emu →
      parse_pc emu title = some rom →
      st.last_global_payload = some (CMDCOR_DATA ++ rom) →
      (parse_and_send (removeWindow st hwnd) h2 title).1 = []) := by
  refine ⟨by simp [removeWindow, upd], by simp [removeWindow, upd],
    by simp [removeWindow, upd], by simp [removeWindow, upd], rfl, ?_⟩
  intro h2 emu rom title hemu hrom hglob
  have hg : (removeWindow st hwnd).last_global_payload =
      some (CMDCOR_DATA ++ rom) := hglob
  simp only [parse_and_send, hemu, hrom]
  rw [if_pos (Or.inr hg)]

def st7ex : WinState :=
  { tracked_windows := fun h => if h = 1 then some "old" else
      if h = 2 then some "TeknoParrot UI" else none,
    last_sent_titles := fun h => if h = 1 then some "old" else none,
    hwnd_emulator := fun h => if h = 1 then some "teknoparrot" else
      if h = 2 then some "teknoparrot" else none,
    last_sent_payload := fun h => if h = 1 then
      some (CMDCOR_DATA ++ "TPEMU-MENU") else none,
    last_global_payload := some (CMDCOR_DATA ++ "TPEMU-MENU") }

/-- C7 witness: after removing window 1 (whose `TPEMU-MENU` payload is the
global last payload), window 2 resolving to the same label does not
republish. -/
theorem remove_window_drops_source_state_witness :
    (parse_and_send (removeWindow st7ex 1) 2 "TeknoParrot UI").1 = [] :=
  (remove_window_drops_source_state st7ex 1).2.2.2.2.2 2 "teknoparrot"
    "TPEMU-MENU" "TeknoParrot UI" (by decide) (by decide) (by decide)

/-! ### C4: default-card token gives the mode name -/

/-- C4: when the per-mode default-card token for the derived mode is set
and non-empty and the trim+uppercase normalization of the reported id
equals it, the resolved label is the mode name itself — which is then
necessarily one of PS1, PS2, GC, the only modes with a configured token;
for an unknown (empty) mode the default-card branch expression
(`tokenBranchLabel`, line 187 of the source) yields the sentinel
`EMU_MENU`. -/
theorem default_card_token_gives_mode (cfg : DeviceConfig)
    (db : String → Option (String × String)) (host : String)
    (data : StateDoc) (t : String)
    (hset : memory_card_token cfg (deriveMode cfg host data) = some t)
    (ht : t ≠ "")
    (hid : _norm (gameIdOf data) = t) :
    resolveLabel cfg db host data = some (deriveMode cfg host data) ∧
    (deriveMode cfg host data = "PS1" ∨ deriveMode cfg host data = "PS2" ∨
      deriveMode cfg host data = "GC") ∧
    tokenBranchLabel "" = "EMU_MENU" := by
  have hmode : deriveMode cfg host data = "PS1" ∨
      deriveMode cfg host data = "PS2" ∨ deriveMode cfg host data = "GC" := by
    by_contra hc
    push_neg at hc
    rw [memory_card_token, if_neg hc.1, if_neg hc.2.1, if_neg hc.2.2] at hset
    exact Option.noConfusion hset
  have hne : deriveMode cfg host data ≠ "" := by
    rcases hmode with h | h | h <;> rw [h] <;> decide
  have htm : tokenMatches (memory_card_token cfg (deriveMode cfg host data))
      (_norm (gameIdOf data)) = true := by
    rw [hset, tokenMatches, hid]
    simp [ht]
  refine ⟨?_, hmode, rfl⟩
  rw [resolveLabel]
  rw [if_pos htm, tokenBranchLabel, if_neg hne]

def cfg4w : DeviceConfig :=
  { mcp2_ip := "1.1.1.1", mcp_gc_ip := "2.2.2.2",
    default_ps1_mc := "", default_ps2_mc := "MemoryCard1",
    default_gc_mc := "" }

def doc4w : StateDoc :=
  ⟨[("currentMode", "PS2"), ("game_id", " memorycard1 ")]⟩

/-- C4 witness: a PS2-mode document whose id normalizes to the configured
PS2 default-card token resolves to the label `PS2`. -/
theorem default_card_token_gives_mode_witness :
    resolveLabel cfg4w (fun _ => none) "1.1.1.1" doc4w =
      some (deriveMode cfg4w "1.1.1.1" doc4w) ∧
    (deriveMode cfg4w "1.1.1.1" doc4w = "PS1" ∨
      deriveMode cfg4w "1.1.1.1" doc4w = "PS2" ∨
      deriveMode cfg4w "1.1.1.1" doc4w = "GC") ∧
    tokenBranchLabel "" = "EMU_MENU" :=
  default_card_token_gives_mode cfg4w (fun _ => none) "1.1.1.1" doc4w
    "MEMORYCARD1" (by decide) (by decide) (by decide)

/-- Recording a mode transition never touches `last_game_name`. -/
theorem devModeUpd_last_game_name (st : DevState) (m : String) :
    (devModeUpd st m).last_game_name = st.last_game_name := by
  rw [devModeUpd]
  split <;> rfl

/-! ### C5: unrecognized ids are a silent miss -/

/-- C5: a device state document whose reported id matches neither the raw
nor the normalized lookup in the game table and does not equal the derived
mode's default-card token produces no publish, leaves `last_game_name`
unchanged, and reports success (`True`). -/
theorem unknown_id_is_silent_miss (cfg : DeviceConfig)
    (db : String → Option (String × String)) (host : String)
    (data : StateDoc) (st : DevState)
    (hdoc : data.entries ≠ [])
    (h1 : db (gameIdOf data) = none)
    (h2 : db (_norm (gameIdOf data)) = none)
    (h3 : ∀ t, memory_card_token cfg (deriveMode cfg host data) = some t →
      _norm (gameIdOf data) ≠ t) :
    (get_game_id cfg db host (some data) st).1 = [] ∧
    (get_game_id cfg db host (some data) st).2.1.last_game_name =
      st.last_game_name ∧
    (get_game_id cfg db host (some data) st).2.2 = true := by
  have htm : tokenMatches (memory_card_token cfg (deriveMode cfg host data))
      (_norm (gameIdOf data)) = false := by
    cases hm : memory_card_token cfg (deriveMode cfg host data) with
    | none => rfl
    | some t =>
      have := h3 t hm
      simp [tokenMatches, this]
  have hres : resolveLabel cfg db host data = none := by
    rw [resolveLabel, if_neg (by rw [htm]; exact Bool.false_ne_true)]
    rw [dbTitleHit, h1, dbTitleHit, h2]
  have hemp : data.entries.isEmpty = false := by
    cases h : data.entries with
    | nil => exact absurd h hdoc
    | cons a l => rfl
  rw [get_game_id, if_neg (by rw [hemp]; exact Bool.false_ne_true), hres]
  exact ⟨rfl, devModeUpd_last_game_name st (deriveMode cfg host data), rfl⟩

def cfg5w : DeviceConfig :=
  { mcp2_ip := "1.1.1.1", mcp_gc_ip := "2.2.2.2",
    default_ps1_mc := "", default_ps2_mc := "MemoryCard1",
    default_gc_mc := "" }

def doc5w : StateDoc :=
  ⟨[("currentMode", "PS2"), ("game_id", "ZZZ-99999")]⟩

/-- C5 witness: an id unknown to an empty game table and different from
the PS2 default-card token is silently skipped. -/
theorem unknown_id_is_silent_miss_witness :
    (get_game_id cfg5w (fun _ => none) "1.1.1.1" (some doc5w)
      ⟨some "Example Game", none⟩).1 = [] ∧
    (get_game_id cfg5w (fun _ => none) "1.1.1.1" (some doc5w)
      ⟨some "Example Game", none⟩).2.1.last_game_name = some "Example Game" ∧
    (get_game_id cfg5w (fun _ => none) "1.1.1.1" (some doc5w)
      ⟨some "Example Game", none⟩).2.2 = true :=
  unknown_id_is_silent_miss cfg5w (fun _ => none) "1.1.1.1" doc5w
    ⟨some "Example Game", none⟩ (by decide) rfl rfl
    (fun t h => by
      rw [show memory_card_token cfg5w (deriveMode cfg5w "1.1.1.1" doc5w) =
        some "MEMORYCARD1" by decide] at h
      cases h
      decide)

/-! ### C1: the dedupe gate and the optimistic update -/

def st1ex : WinState :=
  { tracked_windows := fun h => if h = 1 then some "Old" else none,
    last_sent_titles := fun _ => none,
    hwnd_emulator := fun h => if h = 1 then some "teknoparrot" else none,
    last_sent_payload := fun _ => none,
    last_global_payload := none }

/-- C1 counterexample: at this concrete input the gate decides to send, and
the delivery attempt is the *first* effect `parse_and_send` performs — the
per-source and global payload updates strictly follow it (source lines
255-257), refuting the claim that the records are updated *before*
attempting delivery. -/
theorem delivery_precedes_dedupe_updates :
    (parse_and_send st1ex 1 "Game X").1.head? =
      some (Ev.deliver (CMDCOR_DATA ++ "Game X")) ∧
    (parse_and_send st1ex 1 "Game X").1.drop 1 =
      [Ev.setSourcePayload 1 (CMDCOR_DATA ++ "Game X"),
       Ev.setGlobalPayload (CMDCOR_DATA ++ "Game X")] := by decide

/-- C1 (amended): the pipeline sends the payload `CMDCOR§PARAM§ ++ label`
iff it differs from both the per-source and the global last published
payload; whenever it sends, it sets the per-source and global last
published payload to the new value immediately *after* attempting delivery
(and the caller then records the observed title in `last_sent_titles`);
because `update_tty2rpi_marquee` swallows every exception, a delivery
failure cannot prevent (or roll back) these updates — the post-state never
depends on the delivery outcome. -/
theorem dedupe_gate_optimistic (st : WinState) (hwnd : Nat)
    (title emu rom : String)
    (hemu : st.hwnd_emulator hwnd = some emu)
    (hrom : parse_pc emu title = some rom) :
    ((parse_and_send st hwnd title).1 ≠ [] ↔
      (st.last_sent_payload hwnd ≠ some (CMDCOR_DATA ++ rom) ∧
       st.last_global_payload ≠ some (CMDCOR_DATA ++ rom))) ∧
    ((st.last_sent_payload hwnd ≠ some (CMDCOR_DATA ++ rom) ∧
      st.last_global_payload ≠ some (CMDCOR_DATA ++ rom)) →
      (parse_and_send st hwnd title).1 =
        [Ev.deliver (CMDCOR_DATA ++ rom),
         Ev.setSourcePayload hwnd (CMDCOR_DATA ++ rom),
         Ev.setGlobalPayload (CMDCOR_DATA ++ rom)] ∧
      (parse_and_send st hwnd title).2.last_sent_payload hwnd =
        some (CMDCOR_DATA ++ rom) ∧
      (parse_and_send st hwnd title).2.last_global_payload =
        some (CMDCOR_DATA ++ rom)) ∧
    ((st.last_sent_payload hwnd = some (CMDCOR_DATA ++ rom) ∨
      st.last_global_payload = some (CMDCOR_DATA ++ rom)) →
      parse_and_send st hwnd title = ([], st)) ∧
    (∀ prev, st.tracked_windows hwnd = some prev → title ≠ prev →
      (titleCheck st hwnd title).2.last_sent_titles hwnd = some title) := by
  have hlast : ∀ prev, st.tracked_windows hwnd = some prev → title ≠ prev →
      (titleCheck st hwnd title).2.last_sent_titles hwnd = some title := by
    intro prev hprev hne
    simp only [titleCheck, hprev]
    rw [if_neg hne]
    simp [afterParse, upd]
  by_cases hdup : st.last_sent_payload hwnd = some (CMDCOR_DATA ++ rom) ∨
      st.last_global_payload = some (CMDCOR_DATA ++ rom)
  · have heq : parse_and_send st hwnd title = ([], st) := by
      simp only [parse_and_send, hemu, hrom]
      rw [if_pos hdup]
    refine ⟨?_, ?_, fun _ => heq, hlast⟩
    · rw [heq]
      constructor
      · intro h
        exact absurd rfl h
      · rintro ⟨ha, hb⟩
        rcases hdup with h | h
        · exact absurd h ha
        · exact absurd h hb
    · rintro ⟨ha, hb⟩
      rcases hdup with h | h
      · exact absurd h ha
      · exact absurd h hb
  · rw [not_or] at hdup
    have heq : parse_and_send st hwnd title =
        ([Ev.deliver (CMDCOR_DATA ++ rom),
          Ev.setSourcePayload hwnd (CMDCOR_DATA ++ rom),
          Ev.setGlobalPayload (CMDCOR_DATA ++ rom)],
         { st with
            last_sent_payload :=
              upd st.last_sent_payload hwnd (some (CMDCOR_DATA ++ rom)),
            last_global_payload := some (CMDCOR_DATA ++ rom) }) := by
      simp only [parse_and_send, hemu, hrom]
      rw [if_neg (not_or.mpr hdup)]
    refine ⟨iff_of_true (by rw [heq]; simp) hdup, ?_, ?_, hlast⟩
    · intro _
      rw [heq]
      exact ⟨rfl, by simp [upd], rfl⟩
    · intro hcon
      rcases hcon with h | h
      · exact absurd h hdup.1
      · exact absurd h hdup.2

/-- C1 witness: a fresh teknoparrot window sends its title's payload and
all three records end up holding the new values. -/
theorem dedupe_gate_optimistic_witness :
    (parse_and_send st1ex 1 "Game X").1 =
      [Ev.deliver (CMDCOR_DATA ++ "Game X"),
       Ev.setSourcePayload 1 (CMDCOR_DATA ++ "Game X"),
       Ev.setGlobalPayload (CMDCOR_DATA ++ "Game X")] ∧
    (parse_and_send st1ex 1 "Game X").2.last_sent_payload 1 =
      some (CMDCOR_DATA ++ "Game X") ∧
    (parse_and_send st1ex 1 "Game X").2.last_global_payload =
      some (CMDCOR_DATA ++ "Game X") ∧
    (titleCheck st1ex 1 "Game X").2.last_sent_titles 1 = some "Game X" := by
  have h := dedupe_gate_optimistic st1ex 1 "Game X" "teknoparrot" "Game X"
    (by decide) (by decide)
  obtain ⟨h2a, h2b, h2c⟩ := h.2.1 ⟨by decide, by decide⟩
  exact ⟨h2a, h2b, h2c, h.2.2.2 "Old" (by decide) (by decide)⟩

/-! ### C3: menu-sentinel detection -/

/-- C3 counterexample: the title `"mame"` starts with the mame kind's own
name and matches no noise substring (mame has none), yet the resolver
yields no label at all — the mame branch has no menu-prefix rule, only the
bracketed `___empty` extraction — refuting the claim for the mame kind. -/
theorem mame_prefix_title_gives_no_label :
    parse_pc "mame" "mame" = none ∧
    strStartsWith "mame" (strTrim (strLower "mame")) = true ∧
    is_transient_title "mame" (strTrim (strLower "mame")) = false := by decide

/-- C3 (amended): the prefix-to-sentinel rule holds for duckstation,
teknoparrot, pcsx2 and dolphin (under no noise substring); for flycast it
additionally requires that the title contain no `"- "` marker (otherwise
the post-marker text is extracted instead); for mame the `MAME-MENU`
sentinel arises only from a bracketed `___empty` extraction, not from any
prefix rule. -/
theorem menu_sentinel_detection (title : String) :
    (is_transient_title "duckstation" (strTrim (strLower title)) = false →
      strStartsWith "duckstation" (strTrim (strLower title)) = true →
      parse_pc "duckstation" title = some "PS1EMU-MENU") ∧
    (strStartsWith "teknoparrot" (strTrim (strLower title)) = true →
      parse_pc "teknoparrot" title = some "TPEMU-MENU") ∧
    (is_transient_title "pcsx2" (strTrim (strLower title)) = false →
      strStartsWith "pcsx2" (strTrim (strLower title)) = true →
      parse_pc "pcsx2" title = some "PS2EMU-MENU") ∧
    (is_transient_title "dolphin" (strTrim (strLower title)) = false →
      strStartsWith "dolphin" (strTrim (strLower title)) = true →
      parse_pc "dolphin" title = some "DOLPHIN-MENU") ∧
    (strStartsWith "flycast" (strTrim (strLower title)) = true →
      pyFind title "- " = none →
      parse_pc "flycast" title = some "DCEMU-MENU") ∧
    (∀ a b, pyFind title "[" = some a → pyFindFrom title "]" a = some b →
      strSlice title (a + 1) b = "___empty" →
      parse_pc "mame" title = some "MAME-MENU") := by
  refine ⟨?_, ?_, ?_, ?_, ?_, ?_⟩
  · intro hnoise hpref
    simp [parse_pc, hnoise, hpref]
  · intro hpref
    simp [parse_pc, hpref]
  · intro hnoise hpref
    simp [parse_pc, hnoise, hpref]
  · intro hnoise hpref
    simp [parse_pc, hnoise, hpref]
  · intro hpref hdash
    simp [parse_pc, hpref, hdash]
  · intro a b ha hb hc
    simp [parse_pc, ha, hb, hc]

/-- C3 witness: each amended rule at a concrete title. -/
theorem menu_sentinel_detection_witness :
    parse_pc "duckstation" "DuckStation 0.2" = some "PS1EMU-MENU" ∧
    parse_pc "teknoparrot" "TeknoParrot UI" = some "TPEMU-MENU" ∧
    parse_pc "pcsx2" "PCSX2 v2.0" = some "PS2EMU-MENU" ∧
    parse_pc "dolphin" "Dolphin 5.0" = some "DOLPHIN-MENU" ∧
    parse_pc "flycast" "Flycast" = some "DCEMU-MENU" ∧
    parse_pc "mame" "MAME: [___empty]" = some "MAME-MENU" :=
  ⟨(menu_sentinel_detection "DuckStation 0.2").1 (by decide) (by decide),
   (menu_sentinel_detection "TeknoParrot UI").2.1 (by decide),
   (menu_sentinel_detection "PCSX2 v2.0").2.2.1 (by decide) (by decide),
   (menu_sentinel_detection "Dolphin 5.0").2.2.2.1 (by decide) (by decide),
   (menu_sentinel_detection "Flycast").2.2.2.2.1 (by decide) (by decide),
   (menu_sentinel_detection "MAME: [___empty]").2.2.2.2.2 6 15 (by decide)
     (by decide) (by decide)⟩

/-! ### C6: connection loss and the retained dedupe label -/

def cfg6 : DeviceConfig := ⟨"", "", "", "", ""⟩

def ls6 : LoopState := ⟨some "10.0.0.5", ⟨some "Example Game", some "PS2"⟩⟩

/-- C6 counterexample: when the poll of the connected device fails, the
loop clears `last_mode` (source line 236) — the recorded mode is *not*
retained; only `last_game_name` survives the loss. -/
theorem lost_device_resets_last_mode :
    ls6.dev.last_mode = some "PS2" ∧
    (loopCycle cfg6 (fun _ => none) (fun _ => none) ls6).2.dev.last_mode =
      none ∧
    (loopCycle cfg6 (fun _ => none) (fun _ => none)
      ls6).2.dev.last_game_name = some "Example Game" := by decide

/-- C6 (amended): on a failed poll the loop marks the device lost and
resets `last_mode` to `None`, but retains `last_game_name`; since the
publish guard compares only against `last_game_name`, a reconnected device
resolving to the unchanged label is not re-published. -/
theorem lost_device_retains_label (cfg : DeviceConfig)
    (db : String → Option (String × String)) (net : String → Option StateDoc)
    (ls : LoopState) (ip : String)
    (hip : ls.current_ip = some ip) (hnet : net ip = none) :
    (loopCycle cfg db net ls).1 = [] ∧
    (loopCycle cfg db net ls).2.current_ip = none ∧
    (loopCycle cfg db net ls).2.dev.last_game_name = ls.dev.last_game_name ∧
    (loopCycle cfg db net ls).2.dev.last_mode = none ∧
    (∀ host doc st g, resolveLabel cfg db host doc = some g →
      st.last_game_name = some g →
      (get_game_id cfg db host (some doc) st).1 = []) := by
  have hg : get_game_id cfg db ip (net ip) ls.dev = ([], ls.dev, false) := by
    rw [hnet]
    rfl
  have hrp : runPoll cfg db net ls ip =
      ([], { current_ip := none,
             dev := { ls.dev with last_mode := none } }) := by
    rw [runPoll, hg]
    rfl
  have hlc : loopCycle cfg db net ls =
      ([], { current_ip := none,
             dev := { ls.dev with last_mode := none } }) := by
    simp only [loopCycle, hip]
    exact hrp
  refine ⟨by rw [hlc], by rw [hlc], by rw [hlc], by rw [hlc], ?_⟩
  intro host doc st g hres hname
  by_cases hemp : doc.entries.isEmpty = true
  · rw [get_game_id, if_pos hemp]
  · rw [get_game_id, if_neg hemp, hres]
    have hn : (devModeUpd st (deriveMode cfg host doc)).last_game_name =
        some g := by
      rw [devModeUpd_last_game_name]
      exact hname
    simp [hn]

def cfg6w : DeviceConfig := ⟨"", "", "", "MemoryCard1", ""⟩

def doc6w : StateDoc := ⟨[("currentMode", "PS2"), ("game_id", "memorycard1")]⟩

def ls6w : LoopState := ⟨some "10.9.9.9", ⟨some "PS2", some "PS2"⟩⟩

/-- C6 witness: the label survives a loss, and a state already holding the
resolved label produces no write. -/
theorem lost_device_retains_label_witness :
    (loopCycle cfg6w (fun _ => none) (fun _ => none)
      ls6w).2.dev.last_game_name = ls6w.dev.last_game_name ∧
    (get_game_id cfg6w (fun _ => none) "h" (some doc6w)
      ⟨some "PS2", some "PS2"⟩).1 = [] := by
  have h := lost_device_retains_label cfg6w (fun _ => none) (fun _ => none)
    ls6w "10.9.9.9" rfl rfl
  exact ⟨h.2.2.1, h.2.2.2.2 "h" doc6w ⟨some "PS2", some "PS2"⟩ "PS2"
    (by decide) rfl⟩

/-! ### C8: id key interchangeability and normalization insensitivity -/

/-- Mode derivation reads only the `currentMode` field of the document. -/
theorem deriveMode_congr (cfg : DeviceConfig) (host : String)
    (d1 d2 : StateDoc) (hm : d1.get "currentMode" = d2.get "currentMode") :
    deriveMode cfg host d1 = deriveMode cfg host d2 := by
  simp only [deriveMode, hm]

/-- Resolution reads the document only through `currentMode` and the
reported id. -/
theorem resolveLabel_congr (cfg : DeviceConfig)
    (db : String → Option (String × String)) (host : String)
    (d1 d2 : StateDoc) (hm : d1.get "currentMode" = d2.get "currentMode")
    (hid : gameIdOf d1 = gameIdOf d2) :
    resolveLabel cfg db host d1 = resolveLabel cfg db host d2 := by
  have hdm := deriveMode_congr cfg host d1 d2 hm
  rw [resolveLabel, resolveLabel, hdm, hid]

def rows8 : List (List (String × String)) :=
  [[("id", "abc"), ("title", "T1"), ("serial", "S1")],
   [("id", " abc "), ("title", "T3"), ("serial", "S3")]]

def cfg8 : DeviceConfig := ⟨"", "", "", "", ""⟩

/-- C8 counterexample: the ids `"abc"` and `" abc "` differ only in
leading/trailing whitespace (equal normalizations), yet against the same
loaded game table they resolve to different labels — the raw-first lookup
finds the raw keys `"abc"` (first row) and `" abc "` (second row), whose
rows carry different titles. -/
theorem raw_lookup_distinguishes_whitespace :
    _norm "abc" = _norm " abc " ∧
    resolveLabel cfg8 (dbGet (load_game_db rows8)) "h"
      ⟨[("game_id", "abc")]⟩ = some "T1" ∧
    resolveLabel cfg8 (dbGet (load_game_db rows8)) "h"
      ⟨[("game_id", " abc ")]⟩ = some "T3" := by decide

/-- C8 (amended): the `game_id` and `gameID` keys are interchangeable for
any id value; and resolution of two ids with equal trim+uppercase
normalizations coincides provided neither raw id is itself a key of the
table (the raw-first lookup can otherwise distinguish raw forms that are
distinct table keys). -/
theorem device_id_normalization (cfg : DeviceConfig)
    (db : String → Option (String × String)) (host : String) :
    (∀ (v : String) (d1 d2 : StateDoc),
      d1.get "currentMode" = d2.get "currentMode" →
      d1.get "game_id" = some v → d1.get "gameID" = none →
      d2.get "game_id" = none → d2.get "gameID" = some v →
      resolveLabel cfg db host d1 = resolveLabel cfg db host d2) ∧
    (∀ d1 d2 : StateDoc,
      d1.get "currentMode" = d2.get "currentMode" →
      _norm (gameIdOf d1) = _norm (gameIdOf d2) →
      db (gameIdOf d1) = none → db (gameIdOf d2) = none →
      resolveLabel cfg db host d1 = resolveLabel cfg db host d2) := by
  constructor
  · intro v d1 d2 hm h1 h2 h3 h4
    apply resolveLabel_congr cfg db host d1 d2 hm
    rw [gameIdOf, gameIdOf, h1, h2, h3, h4]
    by_cases hv : v = "" <;> simp [pyOr, hv]
  · intro d1 d2 hm hn hd1 hd2
    have hdm := deriveMode_congr cfg host d1 d2 hm
    have e1 : dbTitleHit db (gameIdOf d1) = none := by rw [dbTitleHit, hd1]
    have e2 : dbTitleHit db (gameIdOf d2) = none := by rw [dbTitleHit, hd2]
    rw [resolveLabel, resolveLabel, hdm, hn, e1, e2]

def doc8a : StateDoc := ⟨[("game_id", "SCUS-12345")]⟩

def doc8b : StateDoc := ⟨[("gameID", "SCUS-12345")]⟩

def doc8c : StateDoc := ⟨[("game_id", "scus-12345")]⟩

/-- C8 witness: moving the id between the two keys, and changing only its
case when the raw forms are not table keys, leaves resolution unchanged. -/
theorem device_id_normalization_witness :
    resolveLabel cfg8 (dbGet (load_game_db rows8)) "h" doc8a =
      resolveLabel cfg8 (dbGet (load_game_db rows8)) "h" doc8b ∧
    resolveLabel cfg8 (dbGet (load_game_db rows8)) "h" doc8a =
      resolveLabel cfg8 (dbGet (load_game_db rows8)) "h" doc8c := by
  have h := device_id_normalization cfg8 (dbGet (load_game_db rows8)) "h"
  exact ⟨h.1 "SCUS-12345" doc8a doc8b (by decide) (by decide) (by decide)
      (by decide) (by decide),
    h.2 doc8a doc8c (by decide) (by decide) (by decide) (by decide)⟩

/-! ### C2: at most one write per run of identical observations -/

/-- Discovery ignores an empty title. -/
theorem discoverWindow_of_empty (st : WinState) (h : Nat) (p : String) :
    discoverWindow st h p "" = ([], st) := by
  rw [discoverWindow, if_pos rfl]

/-- Discovery ignores windows of unknown processes. -/
theorem discoverWindow_of_noemu (st : WinState) (h : Nat) (p t : String)
    (hp : PROCESS_TO_EMU p = none) : discoverWindow st h p t = ([], st) := by
  rw [discoverWindow]
  by_cases ht : t = ""
  · rw [if_pos ht]
  · rw [if_neg ht, hp]

/-- Discovery is a no-op on an already-tracked window. -/
theorem discoverWindow_of_tracked (st : WinState) (h : Nat) (p t : String)
    (hs : (st.tracked_windows h).isSome = true) :
    discoverWindow st h p t = ([], st) := by
  rw [discoverWindow]
  by_cases ht : t = ""
  · rw [if_pos ht]
  · rw [if_neg ht]
    cases hp : PROCESS_TO_EMU p with
    | none => rfl
    | some emu =>
      show (if (st.tracked_windows h).isSome then ([], st)
        else afterParse (withTracked st h t emu) h t) = ([], st)
      rw [if_pos hs]

/-- `afterParse` leaves the tracking map unchanged. -/
theorem afterParse_tracked (st : WinState) (h : Nat) (t : String) :
    (afterParse st h t).2.tracked_windows = st.tracked_windows := by
  show (parse_and_send st h t).2.tracked_windows = st.tracked_windows
  exact (parse_and_send_frame st h t).1

/-- A successful discovery records the observed title. -/
theorem discoverWindow_fires_tracked (st : WinState) (h : Nat)
    (p t emu : String) (hn : st.tracked_windows h = none) (ht : t ≠ "")
    (hp : PROCESS_TO_EMU p = some emu) :
    (discoverWindow st h p t).2.tracked_windows h = some t := by
  rw [discoverWindow, if_neg ht, hp]
  show (if (st.tracked_windows h).isSome then ([], st)
    else afterParse (withTracked st h t emu) h t).2.tracked_windows h = some t
  rw [hn]
  show (afterParse (withTracked st h t emu) h t).2.tracked_windows h = some t
  rw [afterParse_tracked]
  simp [withTracked, upd]

/-- The change check is a no-op on an untracked window. -/
theorem titleCheck_of_none (st : WinState) (h : Nat) (t : String)
    (hn : st.tracked_windows h = none) : titleCheck st h t = ([], st) := by
  rw [titleCheck, hn]

/-- The change check is a no-op when the title is unchanged. -/
theorem titleCheck_of_eq (st : WinState) (h : Nat) (t : String)
    (he : st.tracked_windows h = some t) : titleCheck st h t = ([], st) := by
  rw [titleCheck, he]
  show (if t = t then ([], st) else afterParse (setTrackedTitle st h t) h t) =
    ([], st)
  rw [if_pos rfl]

/-- A processed title change records the new title. -/
theorem titleCheck_changed_tracked (st : WinState) (h : Nat) (t prev : String)
    (hm : st.tracked_windows h = some prev) (hne : t ≠ prev) :
    (titleCheck st h t).2.tracked_windows h = some t := by
  rw [titleCheck, hm]
  show (if t = prev then ([], st)
    else afterParse (setTrackedTitle st h t) h t).2.tracked_windows h = some t
  rw [if_neg hne, afterParse_tracked]
  simp [setTrackedTitle, upd]

/-- The change check attempts at most one delivery. -/
theorem titleCheck_deliver_le (st : WinState) (h : Nat) (t : String) :
    countDeliver (titleCheck st h t).1 ≤ 1 := by
  rw [titleCheck]
  cases hm : st.tracked_windows h with
  | none => simp [countDeliver]
  | some prev =>
    show countDeliver (if t = prev then ([], st)
      else afterParse (setTrackedTitle st h t) h t).1 ≤ 1
    by_cases he : t = prev
    · rw [if_pos he]
      simp [countDeliver]
    · rw [if_neg he]
      exact parse_and_send_deliver_le _ h t

/-- Discovery attempts at most one delivery. -/
theorem discoverWindow_deliver_le (st : WinState) (h : Nat) (p t : String) :
    countDeliver (discoverWindow st h p t).1 ≤ 1 := by
  rw [discoverWindow]
  by_cases ht : t = ""
  · rw [if_pos ht]
    simp [countDeliver]
  · rw [if_neg ht]
    cases hp : PROCESS_TO_EMU p with
    | none => simp [countDeliver]
    | some emu =>
      show countDeliver (if (st.tracked_windows h).isSome then ([], st)
        else afterParse (withTracked st h t emu) h t).1 ≤ 1
      by_cases hs : (st.tracked_windows h).isSome = true
      · rw [if_pos hs]
        simp [countDeliver]
      · rw [if_neg hs]
        exact parse_and_send_deliver_le _ h t

/-- One observation cycle is a no-op when both halves are. -/
theorem observeWindow_eq (st : WinState) (h : Nat) (p t : String)
    (hd : discoverWindow st h p t = ([], st))
    (ht2 : titleCheck st h t = ([], st)) :
    observeWindow st h p t = ([], st) := by
  rw [observeWindow, hd]
  show (([] : List Ev) ++ (titleCheck st h t).1, (titleCheck st h t).2) =
    ([], st)
  rw [ht2, List.nil_append]

/-- One observation cycle is a no-op when the title is already recorded, or
the window is untracked with an empty title or an unknown process. -/
theorem observeWindow_noop (st : WinState) (h : Nat) (p t : String)
    (hc : st.tracked_windows h = some t ∨
      (st.tracked_windows h = none ∧ (t = "" ∨ PROCESS_TO_EMU p = none))) :
    observeWindow st h p t = ([], st) := by
  rcases hc with he | ⟨hn, hc⟩
  · exact observeWindow_eq st h p t
      (discoverWindow_of_tracked st h p t (by rw [he]; rfl))
      (titleCheck_of_eq st h t he)
  · rcases hc with ht | hp
    · exact observeWindow_eq st h p t
        (by rw [ht]; exact discoverWindow_of_empty st h p)
        (titleCheck_of_none st h t hn)
    · exact observeWindow_eq st h p t (discoverWindow_of_noemu st h p t hp)
        (titleCheck_of_none st h t hn)

/-- After one observation cycle the no-op condition holds. -/
theorem observeWindow_post (st : WinState) (h : Nat) (p t : String) :
    (observeWindow st h p t).2.tracked_windows h = some t ∨
    ((observeWindow st h p t).2.tracked_windows h = none ∧
      (t = "" ∨ PROCESS_TO_EMU p = none)) := by
  cases hm : st.tracked_windows h with
  | some prev =>
    left
    by_cases he : t = prev
    · have hob := observeWindow_noop st h p t (Or.inl (by rw [hm, he]))
      rw [hob]
      show st.tracked_windows h = some t
      rw [hm, he]
    · have hd : discoverWindow st h p t = ([], st) :=
        discoverWindow_of_tracked st h p t (by rw [hm]; rfl)
      show (titleCheck (discoverWindow st h p t).2 h t).2.tracked_windows h =
        some t
      rw [hd]
      show (titleCheck st h t).2.tracked_windows h = some t
      exact titleCheck_changed_tracked st h t prev hm he
  | none =>
    by_cases ht : t = ""
    · right
      have hob := observeWindow_noop st h p t (Or.inr ⟨hm, Or.inl ht⟩)
      rw [hob]
      exact ⟨hm, Or.inl ht⟩
    · cases hp : PROCESS_TO_EMU p with
      | none =>
        right
        have hob := observeWindow_noop st h p t (Or.inr ⟨hm, Or.inr hp⟩)
        rw [hob]
        exact ⟨hm, Or.inr rfl⟩
      | some emu =>
        left
        have hd2 := discoverWindow_fires_tracked st h p t emu hm ht hp
        show (titleCheck (discoverWindow st h p t).2 h t).2.tracked_windows h =
          some t
        rw [titleCheck_of_eq _ h t hd2]
        exact hd2

/-- After one observation cycle, further identical cycles are no-ops. -/
theorem observeWindow_stable (st : WinState) (h : Nat) (p t : String) :
    observeWindow (observeWindow st h p t).2 h p t =
      ([], (observeWindow st h p t).2) :=
  observeWindow_noop _ h p t (observeWindow_post st h p t)

/-- One observation cycle attempts at most one delivery. -/
theorem observeWindow_deliver_le (st : WinState) (h : Nat) (p t : String) :
    countDeliver (observeWindow st h p t).1 ≤ 1 := by
  cases hm : st.tracked_windows h with
  | some prev =>
    have hd := discoverWindow_of_tracked st h p t (by rw [hm]; rfl)
    show countDeliver ((discoverWindow st h p t).1 ++
      (titleCheck (discoverWindow st h p t).2 h t).1) ≤ 1
    rw [hd]
    show countDeliver (([] : List Ev) ++ (titleCheck st h t).1) ≤ 1
    rw [List.nil_append]
    exact titleCheck_deliver_le st h t
  | none =>
    by_cases ht : t = ""
    · rw [observeWindow_noop st h p t (Or.inr ⟨hm, Or.inl ht⟩)]
      simp [countDeliver]
    · cases hp : PROCESS_TO_EMU p with
      | none =>
        rw [observeWindow_noop st h p t (Or.inr ⟨hm, Or.inr hp⟩)]
        simp [countDeliver]
      | some emu =>
        have hd2 := discoverWindow_fires_tracked st h p t emu hm ht hp
        show countDeliver ((discoverWindow st h p t).1 ++
          (titleCheck (discoverWindow st h p t).2 h t).1) ≤ 1
        rw [titleCheck_of_eq _ h t hd2]
        show countDeliver ((discoverWindow st h p t).1 ++ ([] : List Ev)) ≤ 1
        rw [List.append_nil]
        exact discoverWindow_deliver_le st h p t

/-- A run of identical cycles starting from a no-op state stays a no-op. -/
theorem runObserve_noop (st : WinState) (h : Nat) (p t : String) (n : Nat)
    (hno : observeWindow st h p t = ([], st)) :
    runObserve st h p t n = ([], st) := by
  induction n with
  | zero => rfl
  | succ n ih =>
    show ((observeWindow st h p t).1 ++
        (runObserve (observeWindow st h p t).2 h p t n).1,
      (runObserve (observeWindow st h p t).2 h p t n).2) = ([], st)
    rw [hno]
    show (([] : List Ev) ++ (runObserve st h p t n).1,
      (runObserve st h p t n).2) = ([], st)
    rw [ih, List.nil_append]

/-- `devModeUpd` is the identity when the mode is empty or already
recorded. -/
theorem devModeUpd_of_fix (st : DevState) (m : String)
    (h : m = "" ∨ st.last_mode = some m) : devModeUpd st m = st := by
  rw [devModeUpd]
  rcases h with h | h
  · rw [if_neg (by simp [h])]
  · rw [if_neg (by simp [h])]

/-- A non-empty mode is recorded after `devModeUpd`. -/
theorem devModeUpd_last_mode_of_ne (st : DevState) (m : String)
    (hm : m ≠ "") : (devModeUpd st m).last_mode = some m := by
  rw [devModeUpd]
  split
  · rfl
  · next hcond =>
    push_neg at hcond
    exact hcond hm

/-- Recording the same mode twice is the same as recording it once. -/
theorem devModeUpd_idem (st : DevState) (m : String) :
    devModeUpd (devModeUpd st m) m = devModeUpd st m := by
  by_cases hm : m = ""
  · exact devModeUpd_of_fix _ m (Or.inl hm)
  · exact devModeUpd_of_fix _ m (Or.inr (devModeUpd_last_mode_of_ne st m hm))

/-- A second poll of the identical document writes nothing and leaves the
state fixed. -/
theorem get_game_id_stable (cfg : DeviceConfig)
    (db : String → Option (String × String)) (host : String)
    (data : StateDoc) (st : DevState) :
    (get_game_id cfg db host (some data)
        ((get_game_id cfg db host (some data) st).2.1)).1 = [] ∧
    (get_game_id cfg db host (some data)
        ((get_game_id cfg db host (some data) st).2.1)).2.1 =
      (get_game_id cfg db host (some data) st).2.1 := by
  by_cases hemp : data.entries.isEmpty = true
  · have hx : ∀ s : DevState,
        get_game_id cfg db host (some data) s = ([], s, false) := fun s => by
      rw [get_game_id, if_pos hemp]
    rw [hx st, hx]
    exact ⟨rfl, rfl⟩
  · cases hres : resolveLabel cfg db host data with
    | none =>
      have hx : ∀ s : DevState, get_game_id cfg db host (some data) s =
          ([], devModeUpd s (deriveMode cfg host data), true) := fun s => by
        rw [get_game_id, if_neg hemp, hres]
      rw [hx st, hx]
      refine ⟨rfl, ?_⟩
      show devModeUpd (devModeUpd st (deriveMode cfg host data))
          (deriveMode cfg host data) = devModeUpd st (deriveMode cfg host data)
      exact devModeUpd_idem st (deriveMode cfg host data)
    | some g =>
      have hx : ∀ s : DevState, get_game_id cfg db host (some data) s =
          (if (devModeUpd s (deriveMode cfg host data)).last_game_name =
              some g
            then ([], devModeUpd s (deriveMode cfg host data), true)
            else ([CMDCOR_DATA ++ g],
              { devModeUpd s (deriveMode cfg host data) with
                 last_game_name := some g }, true)) := fun s => by
        rw [get_game_id, if_neg hemp, hres]
      have hPname : (get_game_id cfg db host
          (some data) st).2.1.last_game_name = some g := by
        rw [hx st]
        by_cases hc : (devModeUpd st
            (deriveMode cfg host data)).last_game_name = some g
        · rw [if_pos hc]
          exact hc
        · rw [if_neg hc]
      have hPmode : devModeUpd ((get_game_id cfg db host (some data) st).2.1)
          (deriveMode cfg host data) =
          (get_game_id cfg db host (some data) st).2.1 := by
        by_cases hm0 : deriveMode cfg host data = ""
        · exact devModeUpd_of_fix _ _ (Or.inl hm0)
        · refine devModeUpd_of_fix _ _ (Or.inr ?_)
          rw [hx st]
          by_cases hc : (devModeUpd st
              (deriveMode cfg host data)).last_game_name = some g
          · rw [if_pos hc]
            show (devModeUpd st (deriveMode cfg host data)).last_mode =
              some (deriveMode cfg host data)
            exact devModeUpd_last_mode_of_ne st _ hm0
          · rw [if_neg hc]
            show (devModeUpd st (deriveMode cfg host data)).last_mode =
              some (deriveMode cfg host data)
            exact devModeUpd_last_mode_of_ne st _ hm0
      constructor
      · rw [hx, hPmode, if_pos hPname]
      · rw [hx, hPmode, if_pos hPname]

/-- Each poll writes at most one payload. -/
theorem get_game_id_writes_le (cfg : DeviceConfig)
    (db : String → Option (String × String)) (host : String)
    (obs : Option StateDoc) (st : DevState) :
    (get_game_id cfg db host obs st).1.length ≤ 1 := by
  cases obs with
  | none => simp [get_game_id]
  | some data =>
    rw [get_game_id]
    split
    · simp
    · split
      · simp
      · split <;> simp

/-- A run of identical polls starting from a fixed state stays fixed. -/
theorem runDev_noop (cfg : DeviceConfig)
    (db : String → Option (String × String)) (host : String)
    (obs : Option StateDoc) (st : DevState) (n : Nat)
    (hno : (get_game_id cfg db host obs st).1 = [] ∧
      (get_game_id cfg db host obs st).2.1 = st) :
    runDev cfg db host obs st n = ([], st) := by
  induction n with
  | zero => rfl
  | succ n ih =>
    show ((get_game_id cfg db host obs st).1 ++
        (runDev cfg db host obs (get_game_id cfg db host obs st).2.1 n).1,
      (runDev cfg db host obs (get_game_id cfg db host obs st).2.1 n).2) =
      ([], st)
    rw [hno.1, hno.2, ih, List.nil_append]

/-- C2: over any run of consecutive polling cycles in which a source's raw
observation is identical — the same process/title pair for a window
source, the same poll outcome (document or failure) for the device
source — the publish channel receives at most one write on behalf of that
source. -/
theorem publish_at_most_once_per_identical_run :
    (∀ st hwnd proc_name title n,
      countDeliver (runObserve st hwnd proc_name title n).1 ≤ 1) ∧
    (∀ cfg db host obs st n,
      (runDev cfg db host obs st n).1.length ≤ 1) := by
  constructor
  · intro st h p t n
    cases n with
    | zero => simp [runObserve, countDeliver]
    | succ n =>
      have hrn := runObserve_noop (observeWindow st h p t).2 h p t n
        (observeWindow_stable st h p t)
      show countDeliver ((observeWindow st h p t).1 ++
        (runObserve (observeWindow st h p t).2 h p t n).1) ≤ 1
      rw [hrn]
      show countDeliver ((observeWindow st h p t).1 ++ ([] : List Ev)) ≤ 1
      rw [List.append_nil]
      exact observeWindow_deliver_le st h p t
  · intro cfg db host obs st n
    cases n with
    | zero => simp [runDev]
    | succ n =>
      cases obs with
      | none =>
        show ((get_game_id cfg db host none st).1 ++
          (runDev cfg db host none
            (get_game_id cfg db host none st).2.1 n).1).length ≤ 1
        show (([] : List String) ++ (runDev cfg db host none st n).1).length ≤ 1
        rw [runDev_noop cfg db host none st n ⟨rfl, rfl⟩, List.nil_append]
        simp
      | some data =>
        have hst := get_game_id_stable cfg db host data st
        have hrn := runDev_noop cfg db host (some data)
          (get_game_id cfg db host (some data) st).2.1 n hst
        show ((get_game_id cfg db host (some data) st).1 ++
          (runDev cfg db host (some data)
            (get_game_id cfg db host (some data) st).2.1 n).1).length ≤ 1
        rw [hrn]
        show ((get_game_id cfg db host (some data) st).1 ++
          ([] : List String)).length ≤ 1
        rw [List.append_nil]
        exact get_game_id_writes_le cfg db host (some data) st

/-! ### C9: game-table loading and lookup -/

/-- A `find?` hit survives appending. -/
theorem find?_append_of_some {α : Type} (l1 l2 : List α) (q : α → Bool)
    (a : α) (hyp : l1.find? q = some a) : (l1 ++ l2).find? q = some a := by
  induction l1 with
  | nil => simp [List.find?] at hyp
  | cons x xs ih =>
    rw [List.cons_append]
    cases hq : q x with
    | true =>
      rw [List.find?_cons_of_pos _ hq] at hyp
      rw [List.find?_cons_of_pos _ hq]
      exact hyp
    | false =>
      rw [List.find?_cons_of_neg _ (by simp [hq])] at hyp
      rw [List.find?_cons_of_neg _ (by simp [hq])]
      exact ih hyp

/-- A `find?` miss defers to the appended list. -/
theorem find?_append_of_none {α : Type} (l1 l2 : List α) (q : α → Bool)
    (hyp : l1.find? q = none) : (l1 ++ l2).find? q = l2.find? q := by
  induction l1 with
  | nil => rfl
  | cons x xs ih =>
    rw [List.cons_append]
    cases hq : q x with
    | true => rw [List.find?_cons_of_pos _ hq] at hyp; exact absurd hyp (by simp)
    | false =>
      rw [List.find?_cons_of_neg _ (by simp [hq])] at hyp
      rw [List.find?_cons_of_neg _ (by simp [hq])]
      exact ih hyp

/-- A `dbGet` miss means a `find?` miss. -/
theorem find?_of_dbGet_none (db : List (String × (String × String)))
    (k : String) (hyp : dbGet db k = none) :
    db.find? (fun kv => kv.1 = k) = none := by
  rw [dbGet] at hyp
  cases hf : db.find? (fun kv => kv.1 = k) with
  | none => rfl
  | some kv => rw [hf] at hyp; simp at hyp

/-- `setdefault` preserves existing bindings. -/
theorem dbGet_setdefault_of_some (db : List (String × (String × String)))
    (k' : String) (v : String × String) (k : String) (p : String × String)
    (hyp : dbGet db k = some p) : dbGet (setdefault db k' v) k = some p := by
  rw [setdefault]
  split
  · exact hyp
  · rw [dbGet] at hyp
    cases hf : db.find? (fun kv => kv.1 = k) with
    | none => rw [hf] at hyp; simp at hyp
    | some kv =>
      rw [hf] at hyp
      rw [dbGet, find?_append_of_some _ _ _ kv hf]
      exact hyp

/-- `setdefault` binds an absent key to the given pair. -/
theorem dbGet_setdefault_of_none (db : List (String × (String × String)))
    (k : String) (v : String × String) (hyp : dbGet db k = none) :
    dbGet (setdefault db k v) k = some v := by
  have hf := find?_of_dbGet_none db k hyp
  rw [setdefault, if_neg (by rw [hf]; simp), dbGet,
    find?_append_of_none _ _ _ hf]
  simp [List.find?]

/-- After `setdefault` the key is bound. -/
theorem dbGet_setdefault_isSome (db : List (String × (String × String)))
    (k : String) (v : String × String) :
    (dbGet (setdefault db k v) k).isSome = true := by
  cases hk : dbGet db k with
  | some p => rw [dbGet_setdefault_of_some db k v k p hk]; rfl
  | none => rw [dbGet_setdefault_of_none db k v hk]; rfl

/-- A lookup after `setdefault` is the old binding or the inserted pair. -/
theorem dbGet_setdefault_cases (db : List (String × (String × String)))
    (k' : String) (v : String × String) (k : String) :
    dbGet (setdefault db k' v) k = dbGet db k ∨
    dbGet (setdefault db k' v) k = some v := by
  cases hk : dbGet db k with
  | some p => left; rw [dbGet_setdefault_of_some db k' v k p hk]
  | none =>
    by_cases he : k = k'
    · right
      subst he
      exact dbGet_setdefault_of_none db k v hk
    · left
      have hf := find?_of_dbGet_none db k hk
      rw [setdefault]
      split
      · rw [dbGet, hf]; rfl
      · rw [dbGet, find?_append_of_none _ _ _ hf]
        simp [List.find?, Ne.symm he]

/-- `rowStep` preserves existing bindings. -/
theorem dbGet_rowStep_of_some (pr : String × String)
    (db : List (String × (String × String))) (v k : String)
    (p : String × String) (hyp : dbGet db k = some p) :
    dbGet (rowStep pr db v) k = some p := by
  rw [rowStep]
  split
  · exact hyp
  · exact dbGet_setdefault_of_some _ _ _ _ _
      (dbGet_setdefault_of_some _ _ _ _ _ hyp)

/-- A lookup after `rowStep` is the old binding or the row's pair. -/
theorem dbGet_rowStep_cases (pr : String × String)
    (db : List (String × (String × String))) (v k : String) :
    dbGet (rowStep pr db v) k = dbGet db k ∨
    dbGet (rowStep pr db v) k = some pr := by
  rw [rowStep]
  split
  · left; rfl
  · rcases dbGet_setdefault_cases (setdefault db v pr) (_norm v) pr k
      with h1 | h1
    · rcases dbGet_setdefault_cases db v pr k with h2 | h2
      · left; rw [h1, h2]
      · right; rw [h1, h2]
    · right; exact h1

/-- The fold over a row's values preserves existing bindings. -/
theorem dbGet_rowFold_of_some (pr : String × String) (vs : List String)
    (db : List (String × (String × String))) (k : String)
    (p : String × String) (hyp : dbGet db k = some p) :
    dbGet (vs.foldl (rowStep pr) db) k = some p := by
  induction vs generalizing db with
  | nil => exact hyp
  | cons v vs ih =>
    rw [List.foldl_cons]
    exact ih _ (dbGet_rowStep_of_some pr db v k p hyp)

/-- A lookup after the fold is the old binding or the row's pair. -/
theorem dbGet_rowFold_cases (pr : String × String) (vs : List String)
    (db : List (String × (String × String))) (k : String) :
    dbGet (vs.foldl (rowStep pr) db) k = dbGet db k ∨
    dbGet (vs.foldl (rowStep pr) db) k = some pr := by
  induction vs generalizing db with
  | nil => left; rfl
  | cons v vs ih =>
    rw [List.foldl_cons]
    rcases ih (rowStep pr db v) with h | h
    · rcases dbGet_rowStep_cases pr db v k with h2 | h2
      · left; rw [h, h2]
      · right; rw [h, h2]
    · right; exact h

/-- After the fold, every non-empty processed value and its normalization
are bound. -/
theorem dbGet_rowFold_isSome (pr : String × String) (vs : List String)
    (db : List (String × (String × String))) (v : String)
    (hv : v ∈ vs) (hne : v ≠ "") :
    (dbGet (vs.foldl (rowStep pr) db) v).isSome = true ∧
    (dbGet (vs.foldl (rowStep pr) db) (_norm v)).isSome = true := by
  induction vs generalizing db with
  | nil => cases hv
  | cons w ws ih =>
    rw [List.foldl_cons]
    rcases List.mem_cons.mp hv with he | hmem
    · subst he
      constructor
      · have h1 : (dbGet (rowStep pr db v) v).isSome = true := by
          rw [rowStep, if_neg hne]
          cases hk : dbGet (setdefault db v pr) v with
          | some p =>
            rw [dbGet_setdefault_of_some _ _ _ _ _ hk]
            rfl
          | none =>
            have hs := dbGet_setdefault_isSome db v pr
            rw [hk] at hs
            exact absurd hs (by simp)
        obtain ⟨p, hp⟩ := Option.isSome_iff_exists.mp h1
        rw [dbGet_rowFold_of_some pr ws _ v p hp]
        rfl
      · have h1 : (dbGet (rowStep pr db v) (_norm v)).isSome = true := by
          rw [rowStep, if_neg hne]
          exact dbGet_setdefault_isSome (setdefault db v pr) (_norm v) pr
        obtain ⟨p, hp⟩ := Option.isSome_iff_exists.mp h1
        rw [dbGet_rowFold_of_some pr ws _ (_norm v) p hp]
        rfl
    · exact ih (rowStep pr db w) hmem

/-- If a row's value (raw and normalized) is unbound beforehand, the fold
binds both forms to the row's pair. -/
theorem dbGet_rowFold_inserts (pr : String × String) (vs : List String)
    (db : List (String × (String × String))) (v : String)
    (hv : v ∈ vs) (hne : v ≠ "")
    (h0 : dbGet db v = none) (h0n : dbGet db (_norm v) = none) :
    dbGet (vs.foldl (rowStep pr) db) v = some pr ∧
    dbGet (vs.foldl (rowStep pr) db) (_norm v) = some pr := by
  obtain ⟨hs, hsn⟩ := dbGet_rowFold_isSome pr vs db v hv hne
  constructor
  · rcases dbGet_rowFold_cases pr vs db v with h | h
    · rw [h, h0] at hs
      exact absurd hs (by simp)
    · exact h
  · rcases dbGet_rowFold_cases pr vs db (_norm v) with h | h
    · rw [h, h0n] at hsn
      exact absurd hsn (by simp)
    · exact h

/-- Loading further rows preserves existing bindings. -/
theorem dbGet_load_mono (rows : List (List (String × String)))
    (db : List (String × (String × String))) (k : String)
    (p : String × String) (hyp : dbGet db k = some p) :
    dbGet (rows.foldl processRow db) k = some p := by
  induction rows generalizing db with
  | nil => exact hyp
  | cons r rs ih =>
    rw [List.foldl_cons]
    exact ih _ (dbGet_rowFold_of_some (rowTitle r, rowSerial r)
      (rowValues r) db k p hyp)

def rows9 : List (List (String × String)) :=
  [[("id", "A"), ("title", "T1"), ("serial", "S1")],
   [("id", "A"), ("title", "T2"), ("serial", "S2")]]

/-- C9 counterexample: the second row's cell value `"A"` is non-empty, yet
looking it up returns the *first* row's `(title, serial)` pair, not the
second row's — `setdefault` never overwrites, so the first binding of a
key wins and the claim fails for every later row sharing a key. -/
theorem duplicate_key_returns_first_row :
    "A" ∈ rowValues [("id", "A"), ("title", "T2"), ("serial", "S2")] ∧
    rowTitle [("id", "A"), ("title", "T2"), ("serial", "S2")] = "T2" ∧
    dbGet (load_game_db rows9) "A" = some ("T1", "S1") ∧
    dbGet (load_game_db rows9) (_norm "A") = some ("T1", "S1") ∧
    (("T1", "S1") : String × String) ≠ ("T2", "S2") := by decide

/-- C9 (amended): after loading, for every row and every non-empty cell
value in that row whose raw and normalized forms were not already bound by
an earlier row, looking the value up raw and normalized both return that
row's `(title, serial)` pair (the first binding of a key wins). -/
theorem game_db_first_binding_wins (pre post : List (List (String × String)))
    (r : List (String × String)) (v : String)
    (hv : v ∈ rowValues r) (hne : v ≠ "")
    (h1 : dbGet (load_game_db pre) v = none)
    (h2 : dbGet (load_game_db pre) (_norm v) = none) :
    dbGet (load_game_db (pre ++ r :: post)) v =
      some (rowTitle r, rowSerial r) ∧
    dbGet (load_game_db (pre ++ r :: post)) (_norm v) =
      some (rowTitle r, rowSerial r) := by
  have hins := dbGet_rowFold_inserts (rowTitle r, rowSerial r) (rowValues r)
    (load_game_db pre) v hv hne h1 h2
  rw [load_game_db, List.foldl_append, List.foldl_cons]
  exact ⟨dbGet_load_mono post _ _ _ hins.1, dbGet_load_mono post _ _ _ hins.2⟩

def row9w : List (String × String) :=
  [("id", "ZZZ9"), ("title", "T9"), ("serial", "S9")]

/-- C9 witness: a single-row table binds the row's id raw and normalized to
its pair. -/
theorem game_db_first_binding_wins_witness :
    dbGet (load_game_db ([] ++ row9w :: [])) "ZZZ9" =
      some (rowTitle row9w, rowSerial row9w) ∧
    dbGet (load_game_db ([] ++ row9w :: [])) (_norm "ZZZ9") =
      some (rowTitle row9w, rowSerial row9w) :=
  game_db_first_binding_wins [] [] row9w "ZZZ9" (by decide) (by decide)
    rfl rfl
